import Mathlib

/-!
Verification of the retrieval-augmented clause-compliance pipeline of the
ADGM document-review assistant.

The development shallowly embeds the two relevant source modules:

* `rag_utils.py` — vector-store build/load (`build_vector_store`,
  `load_vector_store`), the tolerant LLM adapter (`_call_llm_tolerant`)
  and the compliance judge (`check_clause_with_rag`);
* `red_flags.py` — the regex red-flag detectors and the paragraph-mapping
  step (`run_all_checks`).

External collaborators (FAISS, HuggingFace embeddings, the OpenAI chat
backend, Python's `json.loads`, the filesystem) are modelled as explicit
environment records or function parameters; the repository's own control
flow is transcribed statement by statement.  Python exceptions are
modelled with `Except`; Python `None` with `Option`.
-/

/-! ### Python string primitives used by the source -/

/-- Models Python `str.strip()`: remove leading and trailing whitespace. -/
def pyStrip (s : String) : String :=
  String.mk (((s.data.dropWhile Char.isWhitespace).reverse.dropWhile
    Char.isWhitespace).reverse)

/-- Lower-case a character list (models `str.lower()` on ASCII text). -/
def lowerChars (l : List Char) : List Char := l.map Char.toLower

/-- Models Python `str.lower()`. -/
def lowerStr (s : String) : String := String.mk (lowerChars s.data)

/-- Models Python `sep.join(parts)`. -/
def pyJoin (sep : String) : List String → String
  | [] => ""
  | a :: rest => rest.foldl (fun acc x => acc ++ sep ++ x) a

/-- Models Python `s.endswith(suffixStr)`. -/
def pyEndsWith (s suffixStr : String) : Bool :=
  suffixStr.data.isSuffixOf s.data

/-- Contiguous-sublist containment (Python `sub in hay` on strings). -/
def containsSub (hay sub : List Char) : Bool :=
  sub.isPrefixOf hay ||
    match hay with
    | [] => false
    | _ :: t => containsSub t sub

/-- Models Python case-insensitive substring containment
`sub.lower() in hay.lower()`. -/
def lowerContains (hay sub : String) : Bool :=
  containsSub (lowerChars hay.data) (lowerChars sub.data)

/-- The `\x7b` character (used by the source's JSON extraction). -/
def lbrace : Char := Char.ofNat 123

/-- The `\x7d` character. -/
def rbrace : Char := Char.ofNat 125

/-- Models Python `s.find(c)`: index of the first occurrence, `-1` if absent. -/
def pyFindChar (s : String) (c : Char) : Int :=
  match s.data.findIdx? (fun x => x = c) with
  | some i => (i : Int)
  | none => -1

/-- Models Python `s.rfind(c)`: index of the last occurrence, `-1` if absent. -/
def pyRfindChar (s : String) (c : Char) : Int :=
  match s.data.reverse.findIdx? (fun x => x = c) with
  | some j => ((s.data.length - 1 - j : Nat) : Int)
  | none => -1

/-- Models Python slicing `s[a:b]` (negative indices count from the end,
both bounds are clamped, an empty range yields `""`). -/
def pySlice (s : String) (a b : Int) : String :=
  let n : Int := (s.data.length : Int)
  let a2 : Int := if a < 0 then max (a + n) 0 else min a n
  let b2 : Int := if b < 0 then max (b + n) 0 else min b n
  String.mk ((s.data.drop a2.toNat).take (b2.toNat - a2.toNat))

/-- The source's best-effort JSON extraction (`check_clause_with_rag`,
lines 155-157): `raw[raw.find("\x7b") : raw.rfind("\x7d") + 1]`. -/
def extractBraces (raw : String) : String :=
  pySlice raw (pyFindChar raw lbrace) (pyRfindChar raw rbrace + 1)

/-! ### Python exception and JSON value model -/

/-- The Python exceptions raised by `rag_utils.py`, carrying their message. -/
inductive PyErr where
  | fileNotFoundError (msg : String)
  | valueError (msg : String)
  | runtimeError (msg : String)
  | attributeError (msg : String)
  | otherError (msg : String)
  deriving DecidableEq

/-- JSON values appearing in compliance judgments. -/
inductive JValue where
  | null
  | bool (b : Bool)
  | str (s : String)
  | num (n : Int)
  deriving DecidableEq

/-- A Python dict (insertion-ordered key/value pairs), as returned by
`json.loads` on an object and by `check_clause_with_rag`. -/
abbrev PyDict := List (String × JValue)

/-! ### Generation client adapter (`_call_llm_tolerant`) -/

/-- A dynamic Python value returned by an LLM wrapper call: either a
`str`, or any other object together with its `str()` rendering. -/
inductive PyVal where
  | str (s : String)
  | other (reprStr : String)
  deriving DecidableEq

/-- Models `str(resp)` on a value the source has already pattern-matched. -/
def pyStr : PyVal → String
  | .str s => s
  | .other r => r

/-- The result object of an `llm.generate([prompt])` call:
`nestedText` is `gen.generations[0][0].text` when that extraction yields a
string, `reprStr` is `str(gen)`. -/
structure GenOutput where
  nestedText : Option String
  reprStr : String

/-- A generation-backend handle.  `call` models direct invocation
`llm(prompt)` (and, identically, `llm.__call__(prompt)`); `predict` and
`generate` are present exactly when `hasattr(llm, ...)` holds.  Each
invocation either raises (`Except.error` with the exception message) or
returns a value. -/
structure LLM where
  call : String → Except String PyVal
  predict : Option (String → Except String PyVal)
  generate : Option (String → Except String GenOutput)

/-- The `predict` branch of `_call_llm_tolerant` (lines 86-92): yields a
result only when the attribute exists and returns a `str` without raising. -/
def tryPredict (l : LLM) (prompt : String) : Option String :=
  match l.predict with
  | none => none
  | some f =>
    match f prompt with
    | .ok (.str s) => some (pyStrip s)
    | _ => none

/-- The `generate` branch of `_call_llm_tolerant` (lines 94-106): when the
attribute exists and the call does not raise, the nested
`gen.generations[0][0].text` is stripped, falling back to `str(gen)`. -/
def tryGenerate (l : LLM) (prompt : String) : Option String :=
  match l.generate with
  | none => none
  | some f =>
    match f prompt with
    | .ok g =>
      some (match g.nestedText with
            | some t => pyStrip t
            | none => g.reprStr)
    | .error _ => none

/-- Transcription of `_call_llm_tolerant` (rag_utils.py lines 68-115):
direct call, then `predict`, then `generate`, then a final `__call__`
whose failure is wrapped in `RuntimeError("LLM call failed: ...")`. -/
def call_llm_tolerant (llm : Option LLM) (prompt : String) : Except String String :=
  match llm with
  | none => .error "LLM instance is None"
  | some l =>
    match l.call prompt with
    | .ok (.str s) => .ok (pyStrip s)
    | _ =>
      match tryPredict l prompt with
      | some s => .ok s
      | none =>
        match tryGenerate l prompt with
        | some s => .ok s
        | none =>
          match l.call prompt with
          | .ok (.str s) => .ok (pyStrip s)
          | .ok v => .ok (pyStr v)
          | .error e => .error ("LLM call failed: " ++ e)

/-! ### Index store and retrieval

The index itself (FAISS) and the embedding model (HuggingFace) are
external libraries, not code of this repository.  Their behaviour is
modelled from the spec. -/

/-- A reference fragment held by the store: chunk text, the source tag
from the loader metadata (`metadata.get("source")`), and its embedding. -/
structure Frag where
  text : String
  source : Option String
  vec : List ℚ
  deriving DecidableEq

/-- Modelled from the spec: the persistent vector store — every fragment
carries exactly one embedding vector, and queries are embedded by the
store's embedding model (`HuggingFaceEmbeddings`, external). -/
structure Store where
  frags : List Frag
  embed : String → List ℚ

/-- A retrieval candidate: fragment data, similarity score, and the
fragment's original insertion position. -/
structure SimEntry where
  text : String
  source : Option String
  score : ℚ
  pos : Nat

/-- Modelled from the spec: the similarity score between an embedded query
and a fragment vector (a fixed numeric similarity; dot product). -/
def dotQ (a b : List ℚ) : ℚ := (List.zipWith (fun x y => x * y) a b).sum

/-- All fragments of a store scored against a query, tagged with their
insertion positions. -/
def entriesOf (vs : Store) (q : String) : List SimEntry :=
  vs.frags.enum.map fun ip =>
    { text := ip.2.text, source := ip.2.source
      score := dotQ (vs.embed q) ip.2.vec, pos := ip.1 }

/-- Retrieval precedence: higher similarity first, ties broken by
original insertion order. -/
def simPrec (a b : SimEntry) : Prop :=
  b.score < a.score ∨ (a.score = b.score ∧ a.pos ≤ b.pos)

instance instDecSimPrec : DecidableRel simPrec := fun a b =>
  decidable_of_iff (b.score < a.score ∨ (a.score = b.score ∧ a.pos ≤ b.pos))
    Iff.rfl

instance instTotalSimPrec : IsTotal SimEntry simPrec where
  total a b := by
    rcases lt_trichotomy a.score b.score with h | h | h
    · exact Or.inr (Or.inl h)
    · rcases Nat.le_total a.pos b.pos with hp | hp
      · exact Or.inl (Or.inr ⟨h, hp⟩)
      · exact Or.inr (Or.inr ⟨h.symm, hp⟩)
    · exact Or.inl (Or.inl h)

instance instTransSimPrec : IsTrans SimEntry simPrec where
  trans a b c hab hbc := by
    rcases hab with h1 | ⟨h1, h1p⟩ <;> rcases hbc with h2 | ⟨h2, h2p⟩
    · exact Or.inl (lt_trans h2 h1)
    · exact Or.inl (by rw [← h2]; exact h1)
    · exact Or.inl (by rw [h1]; exact h2)
    · exact Or.inr ⟨h1.trans h2, le_trans h1p h2p⟩

/-- Modelled from the spec: `vectorstore.similarity_search(query, k)`
(external FAISS) — the top-k fragments by decreasing similarity, ties in
insertion order. -/
def similarity_search (vs : Store) (q : String) (k : Nat) : List SimEntry :=
  (List.insertionSort simPrec (entriesOf vs q)).take k

/-! ### Compliance judge (`check_clause_with_rag`) -/

/-- The source-tagged context string built by `check_clause_with_rag`
(lines 138-141): each retrieved snippet followed by its source tag,
joined with `"\n\n---\n\n"`. -/
def contextOf (vs : Store) (clause : String) (k : Nat) : String :=
  pyJoin "\n\n---\n\n"
    ((similarity_search vs clause k).map fun d =>
      d.text ++ "\n\n[SOURCE: " ++ d.source.getD "unknown" ++ "]")

/-- `PROMPT_TEMPLATE.format(clause=..., context=...)` from rag_utils.py. -/
def promptTemplate (clause context : String) : String :=
  "You are an expert legal compliance assistant for ADGM jurisdiction.\n\nTask:\n- Given the user\x27s clause and the ADGM context snippets below, determine compliance.\n- If non-compliant, explain the issue and provide one concrete improved clause suggestion.\n- If possible include the snippet\x27s filename or short citation.\n\nReturn a JSON object exactly with keys:\n\x7b\"compliant\": true/false, \"issue\": \"...\", \"suggestion\": \"...\", \"citation\": \"...\"\x7d\n\nUser clause:\n" ++ clause ++ "\n\nContext (relevant snippets):\n" ++ context ++ "\n"

/-- Transcription of `check_clause_with_rag` (rag_utils.py lines 135-161).
`jsonLoads` models Python's external `json.loads` applied to the extracted
text (`some` on success, `none` when it raises).  An absent store hits the
unguarded `vectorstore.similarity_search` attribute access and raises. -/
def check_clause_with_rag (jsonLoads : String → Option PyDict)
    (clause_text : String) (vectorstore : Option Store) (llm : Option LLM)
    (k : Nat) : Except PyErr PyDict :=
  match vectorstore with
  | none =>
    .error (.attributeError "NoneType object has no attribute similarity_search")
  | some vs =>
    let context := contextOf vs clause_text k
    match llm with
    | none =>
      .ok [("compliant", .null), ("issue", .null), ("suggestion", .null),
           ("citation", .str context)]
    | some l =>
      let prompt := promptTemplate clause_text context
      match call_llm_tolerant (some l) prompt with
      | .error e =>
        .ok [("compliant", .null), ("issue", .str ("LLM error: " ++ e)),
             ("suggestion", .null), ("citation", .str context)]
      | .ok raw =>
        match jsonLoads (extractBraces raw) with
        | some data => .ok data
        | none =>
          .ok [("compliant", .null), ("issue", .str raw),
               ("suggestion", .null), ("citation", .str context)]

/-! ### Index builder and loader (`build_vector_store`, `load_vector_store`)

The filesystem, the document loaders, the text splitter, the embedding
backend and FAISS persistence are external; each external call's outcome
is a field of an environment record, and the persisted index location is
threaded through explicitly as `disk : Option Store`. -/

/-- A raw document produced by `TextLoader` / `PyPDFLoader` (page content
plus the `source` metadata the loaders attach). -/
structure RawDoc where
  text : String
  source : Option String
  deriving DecidableEq

/-- The environment of one `build_vector_store` run: the folder check,
the `os.listdir` listing, the two loaders, the embedding initialization,
the splitter, `FAISS.from_documents`, and `save_local` (whose failure may
leave the persisted location in an arbitrary state `savePartialDisk`). -/
structure BuildEnv where
  folderExists : Bool
  listing : List String
  loadPdf : String → List RawDoc
  loadTxt : String → List RawDoc
  embedInit : Except String Unit
  splitDocs : List RawDoc → List RawDoc
  faissBuild : List RawDoc → Except String Store
  saveResult : Except String Unit
  savePartialDisk : Option Store

/-- The document-loading loop of `build_vector_store` (lines 29-39):
files ending in `.pdf` or `.txt` (case-insensitively) are loaded, any
other extension is skipped. -/
def loadedDocs (env : BuildEnv) : List RawDoc :=
  env.listing.bind fun fname =>
    if pyEndsWith (lowerStr fname) ".pdf" then env.loadPdf fname
    else if pyEndsWith (lowerStr fname) ".txt" then env.loadTxt fname
    else []

/-- Transcription of `build_vector_store` (rag_utils.py lines 17-57),
returning the raised-or-returned outcome together with the new state of
the persisted index location. -/
def build_vector_store (env : BuildEnv) (disk : Option Store) :
    Except PyErr Store × Option Store :=
  if env.folderExists = false then
    (.error (.fileNotFoundError "Legal refs folder not found: legal_refs"), disk)
  else
    match env.embedInit with
    | .error e =>
      (.error (.runtimeError ("Failed to initialize embeddings: " ++ e)), disk)
    | .ok _ =>
      let docs := loadedDocs env
      if docs = [] then
        (.error (.valueError "No legal reference documents found in legal_refs/"), disk)
      else
        let chunks := env.splitDocs docs
        match env.faissBuild chunks with
        | .error e =>
          (.error (.runtimeError ("Failed to build FAISS vectorstore: " ++ e)), disk)
        | .ok vs =>
          match env.saveResult with
          | .ok _ => (.ok vs, some vs)
          | .error e =>
            (.error (.runtimeError ("Failed to save FAISS vectorstore: " ++ e)),
             env.savePartialDisk)

/-- The environment of one `load_vector_store` run.  `builtWithModel`
records the embedding model identifier the persisted index was built
with (the source never consults it); `embedInit` is the outcome of
`HuggingFaceEmbeddings(model_name=hf_model)`; `loadLocal` is the store
`FAISS.load_local` reconstructs under the supplied model. -/
structure LoadEnv where
  dirExists : Bool
  builtWithModel : String
  embedInit : String → Except String Unit
  loadLocal : String → Store

/-- Transcription of `load_vector_store` (rag_utils.py lines 59-65). -/
def load_vector_store (env : LoadEnv) (hf_model : String) : Except PyErr Store :=
  if env.dirExists = false then
    .error (.fileNotFoundError "FAISS vectorstore not found. Run build_vector_store() first.")
  else
    match env.embedInit hf_model with
    | .error e => .error (.otherError e)
    | .ok _ => .ok (env.loadLocal hf_model)

/-! ### Red-flag checks (`red_flags.py`)

The regex patterns of the source are literal alternations surrounded by
word boundaries; they are executed here by a direct scanner with Python
`re` semantics (leftmost match, alternatives tried in order,
case-insensitive, non-overlapping continuation after each match). -/

/-- Python regex word characters (`\w` on ASCII text). -/
def isWordChar (c : Char) : Bool := c.isAlphanum || c = '_'

/-- A word boundary (`\b`) before position `i` of `s`. -/
def wordBoundary (s : List Char) (i : Nat) : Bool :=
  let before := if i = 0 then false else isWordChar (s.getD (i - 1) ' ')
  let after := isWordChar (s.getD i ' ')
  before != after

/-- Case-insensitive literal match of `lit` at position `i` of `s`. -/
def matchesAt (s : List Char) (i : Nat) (lit : List Char) : Bool :=
  lowerChars ((s.drop i).take lit.length) == lowerChars lit

/-- Try the alternatives of a `\b(...|...)\b` pattern at position `i`,
in the order they appear in the source pattern; returns the matched text
(original case). -/
def tryAlts (alts : List (List Char)) (s : List Char) (i : Nat) :
    Option (List Char) :=
  if wordBoundary s i then
    alts.findSome? fun alt =>
      if matchesAt s i alt && wordBoundary s (i + alt.length) then
        some ((s.drop i).take alt.length)
      else none
  else none

/-- Scanning loop of `re.finditer`: advance one position on failure,
continue after the match on success.  The fuel argument bounds the scan
by the text length. -/
def findIterAux (alts : List (List Char)) (s : List Char) :
    Nat → Nat → List (Nat × String)
  | 0, _ => []
  | fuel + 1, i =>
    if i < s.length then
      match tryAlts alts s i with
      | some m => (i, String.mk m) :: findIterAux alts s fuel (i + m.length)
      | none => findIterAux alts s fuel (i + 1)
    else []

/-- `re.finditer(pat, text, flags=re.IGNORECASE)` for a word-bounded
literal-alternation pattern: the list of (start position, matched text). -/
def findIter (alts : List String) (text : String) : List (Nat × String) :=
  findIterAux (alts.map String.data) text.data (text.data.length + 1) 0

/-- An issue dict produced by the detectors: `matchText` models the
`"match"` entry (`None` for the signature check), `span` the
`"start"`/`"end"` entries. -/
structure Issue where
  matchText : Option String
  message : String
  span : Option (Nat × Nat)
  severity : String
  deriving DecidableEq

/-- The `(pattern, message)` pairs of `detect_wrong_jurisdiction`, with
each regex alternation expanded to its literal alternatives in source
order. -/
def jurisdictionPatterns : List (List String × String) :=
  [(["UAE Federal Court", "UAE Federal Courts", "UAE Federal law",
     "UAE Federal laws"],
    "References UAE Federal Courts instead of ADGM Courts"),
   (["DIFC"], "References DIFC instead of ADGM"),
   (["United Arab Emirates Federal Courts"],
    "References UAE Federal Courts instead of ADGM Courts")]

/-- Transcription of `detect_wrong_jurisdiction` (red_flags.py lines 5-19). -/
def detect_wrong_jurisdiction (text : String) : List Issue :=
  jurisdictionPatterns.bind fun pm =>
    (findIter pm.1 text).map fun im =>
      { matchText := some im.2, message := pm.2
        span := some (im.1, im.1 + im.2.length), severity := "High" }

/-- The ambiguous-phrase patterns of `detect_ambiguous_language`. -/
def ambiguousPatterns : List (List String) :=
  [["may"], ["might"], ["endeavour"], ["best endeavours"], ["best efforts"]]

/-- Transcription of `detect_ambiguous_language` (red_flags.py lines 32-41). -/
def detect_ambiguous_language (text : String) : List Issue :=
  ambiguousPatterns.bind fun alts =>
    (findIter alts text).map fun im =>
      { matchText := some im.2
        message := "Ambiguous/non-binding phrase: \x27" ++ im.2 ++ "\x27"
        span := some (im.1, im.1 + im.2.length), severity := "Medium" }

/-- The signature-heading alternatives of `detect_missing_signature_block`
(plain substrings, no word boundaries in the source pattern). -/
def signatureNeedles : List String :=
  ["signature", "signed by", "for and on behalf", "authorised signatory",
   "signature:"]

/-- Transcription of `detect_missing_signature_block` (red_flags.py
lines 21-30). -/
def detect_missing_signature_block (paragraphs : List String) : List Issue :=
  let joined := pyJoin "\n" paragraphs
  if signatureNeedles.any (fun n => lowerContains joined n) then []
  else
    [{ matchText := none, message := "No signature block detected in document."
       span := none, severity := "High" }]

/-- A mapped red-flag record as produced by `run_all_checks`. -/
structure MappedIssue where
  paragraph_index : Nat
  flag_text : String
  comment : String
  severity : String
  deriving DecidableEq

/-- The per-issue mapping step of `run_all_checks` (red_flags.py
lines 51-66): the paragraph index is the first paragraph containing the
match text (case-insensitively), defaulting to 0 when there is no match
text (Python truthiness: `None` or `""`) or no containing paragraph. -/
def mapIssue (paragraphs : List String) (iss : Issue) : MappedIssue :=
  let para_idx : Nat :=
    match iss.matchText with
    | some m =>
      if m = "" then 0
      else
        match List.findIdx? (fun p => lowerContains p m) paragraphs with
        | some i => i
        | none => 0
    | none => 0
  { paragraph_index := para_idx
    flag_text := match iss.matchText with
                 | some m => if m = "" then "" else m
                 | none => ""
    comment := iss.message
    severity := iss.severity }

/-- Transcription of `run_all_checks` (red_flags.py lines 43-67). -/
def run_all_checks (text : String) (paragraphs : List String) :
    List MappedIssue :=
  ((detect_wrong_jurisdiction text ++ detect_ambiguous_language text)
    ++ detect_missing_signature_block paragraphs).map (mapIssue paragraphs)

/-! ### Concrete instances used by witnesses and counterexamples -/

/-- A one-fragment store (the spec's scenario corpus). -/
def exStore : Store :=
  { frags := [{ text := "ADGM Courts have exclusive jurisdiction."
                source := some "adgm.txt", vec := [1] }]
    embed := fun _ => [1] }

/-- A `json.loads` model that always fails to parse. -/
def exJlNone : String → Option PyDict := fun _ => none

/-- A backend whose direct invocation returns the string `" hi "`. -/
def exLLMdirect : LLM :=
  { call := fun _ => .ok (.str " hi "), predict := none, generate := none }

/-- A backend whose every calling convention raises. -/
def exLLMfail : LLM :=
  { call := fun _ => .error "boom", predict := none, generate := none }

/-- A backend whose direct invocation returns the string `"x"`. -/
def exLLMok : LLM :=
  { call := fun _ => .ok (.str "x"), predict := none, generate := none }

/-- A `json.loads` model that parses to a dict with none of the
contract's keys. -/
def exJlVerbatim : String → Option PyDict :=
  fun _ => some [("verdict", JValue.str "no contract keys")]

/-! ### C2 — tolerant multi-convention backend invocation -/

/-- C2: `_call_llm_tolerant` attempts direct invocation, then `predict`,
then `generate` in that fixed order, returning the first convention that
yields a string without raising; it raises only after every convention
has been attempted and failed, and the raised error wraps the last
underlying failure (the final `__call__` exception). -/
theorem call_llm_tolerant_priority_order (l : LLM) (p : String) :
    (∀ s, l.call p = .ok (.str s) →
      call_llm_tolerant (some l) p = .ok (pyStrip s)) ∧
    (∀ s, (∀ t, l.call p ≠ .ok (.str t)) → tryPredict l p = some s →
      call_llm_tolerant (some l) p = .ok s) ∧
    (∀ s, (∀ t, l.call p ≠ .ok (.str t)) → tryPredict l p = none →
      tryGenerate l p = some s → call_llm_tolerant (some l) p = .ok s) ∧
    (∀ msg, call_llm_tolerant (some l) p = .error msg →
      (∀ t, l.call p ≠ .ok (.str t)) ∧ tryPredict l p = none ∧
      tryGenerate l p = none ∧
      ∃ e, l.call p = .error e ∧ msg = "LLM call failed: " ++ e) := by
  refine ⟨?_, ?_, ?_, ?_⟩
  · intro s hs
    simp [call_llm_tolerant, hs]
  · intro s hns hp
    rcases hc : l.call p with e | v
    · simp [call_llm_tolerant, hc, hp]
    · rcases v with t | r
      · exact absurd hc (hns t)
      · simp [call_llm_tolerant, hc, hp]
  · intro s hns hp hg
    rcases hc : l.call p with e | v
    · simp [call_llm_tolerant, hc, hp, hg]
    · rcases v with t | r
      · exact absurd hc (hns t)
      · simp [call_llm_tolerant, hc, hp, hg]
  · intro msg hmsg
    rcases hc : l.call p with e | v
    · rcases hp : tryPredict l p with _ | s
      · rcases hg : tryGenerate l p with _ | s
        · simp [call_llm_tolerant, hc, hp, hg] at hmsg
          refine ⟨?_, rfl, rfl, e, rfl, hmsg.symm⟩
          intro t h
          exact Except.noConfusion h
        · simp [call_llm_tolerant, hc, hp, hg] at hmsg
      · simp [call_llm_tolerant, hc, hp] at hmsg
    · rcases v with t | r
      · simp [call_llm_tolerant, hc] at hmsg
      · rcases hp : tryPredict l p with _ | s
        · rcases hg : tryGenerate l p with _ | s
          · simp [call_llm_tolerant, hc, hp, hg] at hmsg
          · simp [call_llm_tolerant, hc, hp, hg] at hmsg
        · simp [call_llm_tolerant, hc, hp] at hmsg

/-- C2 witness: a backend answering the direct call with `" hi "` makes
the adapter return the stripped string. -/
theorem call_llm_tolerant_priority_order_witness :
    call_llm_tolerant (some exLLMdirect) "p" = .ok "hi" := by
  have h := (call_llm_tolerant_priority_order exLLMdirect "p").1 " hi " rfl
  have hs : pyStrip " hi " = "hi" := by decide
  rw [hs] at h
  exact h

/-! ### C1 — judgment-time failures are absorbed, never raised -/

/-- C1: with a present store and backend, an adapter failure or a JSON
parse failure makes `check_clause_with_rag` return
`compliant=None`, `issue` carrying the error message (`"LLM error: ..."`)
or the raw response text, `suggestion=None`, and `citation` equal to the
retrieved context; the generation/parse step never raises to the caller. -/
theorem check_clause_absorbs_failures (jl : String → Option PyDict)
    (clause : String) (vs : Store) (l : LLM) (k : Nat) :
    (∀ e, call_llm_tolerant (some l)
        (promptTemplate clause (contextOf vs clause k)) = .error e →
      check_clause_with_rag jl clause (some vs) (some l) k =
        .ok [("compliant", .null), ("issue", .str ("LLM error: " ++ e)),
             ("suggestion", .null), ("citation", .str (contextOf vs clause k))]) ∧
    (∀ raw, call_llm_tolerant (some l)
        (promptTemplate clause (contextOf vs clause k)) = .ok raw →
      jl (extractBraces raw) = none →
      check_clause_with_rag jl clause (some vs) (some l) k =
        .ok [("compliant", .null), ("issue", .str raw), ("suggestion", .null),
             ("citation", .str (contextOf vs clause k))]) ∧
    (∃ d, check_clause_with_rag jl clause (some vs) (some l) k = .ok d) := by
  refine ⟨?_, ?_, ?_⟩
  · intro e he
    simp [check_clause_with_rag, he]
  · intro raw hr hj
    simp [check_clause_with_rag, hr, hj]
  · rcases hc : call_llm_tolerant (some l)
        (promptTemplate clause (contextOf vs clause k)) with e | raw
    · exact ⟨[("compliant", .null), ("issue", .str ("LLM error: " ++ e)),
              ("suggestion", .null), ("citation", .str (contextOf vs clause k))],
        by simp [check_clause_with_rag, hc]⟩
    · rcases hj : jl (extractBraces raw) with _ | d
      · exact ⟨[("compliant", .null), ("issue", .str raw), ("suggestion", .null),
                ("citation", .str (contextOf vs clause k))],
          by simp [check_clause_with_rag, hc, hj]⟩
      · exact ⟨d, by simp [check_clause_with_rag, hc, hj]⟩

/-- C1 witness: a backend whose every convention raises yields the
absorbed `"LLM error: LLM call failed: boom"` judgment. -/
theorem check_clause_absorbs_failures_witness :
    check_clause_with_rag exJlNone "c" (some exStore) (some exLLMfail) 3 =
      .ok [("compliant", .null),
           ("issue", .str ("LLM error: " ++ ("LLM call failed: " ++ "boom"))),
           ("suggestion", .null),
           ("citation", .str (contextOf exStore "c" 3))] :=
  (check_clause_absorbs_failures exJlNone "c" exStore exLLMfail 3).1
    ("LLM call failed: " ++ "boom") rfl

/-! ### C3 — absent store -/

/-- C3 counterexample: with an absent store the judge does not return the
`compliant=None/issue=None/suggestion=None/citation=None` judgment — it
raises an `AttributeError` from the unguarded
`vectorstore.similarity_search` call. -/
theorem check_clause_absent_store_counterexample :
    check_clause_with_rag exJlNone "Governed by DIFC courts." none none 3 =
      .error (.attributeError "NoneType object has no attribute similarity_search") ∧
    check_clause_with_rag exJlNone "Governed by DIFC courts." none none 3 ≠
      .ok [("compliant", .null), ("issue", .null), ("suggestion", .null),
           ("citation", .null)] :=
  ⟨rfl, fun h => Except.noConfusion h⟩

/-- C3 amended: for every clause and every backend handle (present or
absent), calling the compliance judge with an absent store raises an
attribute error; it never returns a judgment.  (The absent-store guard
lives in the caller, which skips the judge when no index is loaded.) -/
theorem check_clause_absent_store_raises (jl : String → Option PyDict)
    (clause : String) (llm : Option LLM) (k : Nat) :
    check_clause_with_rag jl clause none llm k =
      .error (.attributeError "NoneType object has no attribute similarity_search") :=
  rfl

/-! ### C8 — loading from a missing directory -/

/-- C8: `load_vector_store` on a directory that does not exist fails with
the not-found error and returns no store. -/
theorem load_vector_store_missing_dir (env : LoadEnv) (hf : String)
    (h : env.dirExists = false) :
    load_vector_store env hf =
      .error (.fileNotFoundError
        "FAISS vectorstore not found. Run build_vector_store() first.") := by
  simp [load_vector_store, h]

/-- A load environment whose persisted-index directory is absent. -/
def exLoadEnvMissing : LoadEnv :=
  { dirExists := false, builtWithModel := "all-MiniLM-L6-v2"
    embedInit := fun _ => .ok (), loadLocal := fun _ => exStore }

/-- C8 witness. -/
theorem load_vector_store_missing_dir_witness :
    load_vector_store exLoadEnvMissing "all-MiniLM-L6-v2" =
      .error (.fileNotFoundError
        "FAISS vectorstore not found. Run build_vector_store() first.") :=
  load_vector_store_missing_dir exLoadEnvMissing "all-MiniLM-L6-v2" rfl

/-! ### C6 — no embedding-model identifier check on load -/

/-- A load environment whose index was built with the default model. -/
def exLoadEnv : LoadEnv :=
  { dirExists := true, builtWithModel := "all-MiniLM-L6-v2"
    embedInit := fun _ => .ok (), loadLocal := fun _ => exStore }

/-- C6 counterexample: loading under `"some-other-model"`, different from
the identifier the index was built with, succeeds — the source performs
no configuration-mismatch check. -/
theorem load_vector_store_mismatch_counterexample :
    exLoadEnv.builtWithModel = "all-MiniLM-L6-v2" ∧
    ("some-other-model" : String) ≠ exLoadEnv.builtWithModel ∧
    load_vector_store exLoadEnv "some-other-model" = .ok exStore :=
  ⟨rfl, by decide, rfl⟩

/-- C6 amended: `load_vector_store` performs no model-identifier check —
whenever the directory exists (and the embedding backend initializes),
the load succeeds regardless of whether the supplied identifier matches
the one used at build time. -/
theorem load_vector_store_ignores_model_id (env : LoadEnv) (hf : String)
    (h : env.dirExists = true) (h2 : env.embedInit hf = .ok ()) :
    load_vector_store env hf = .ok (env.loadLocal hf) := by
  simp [load_vector_store, h, h2]

/-- C6 amended witness: the mismatched load of the counterexample is an
instance of the amended statement. -/
theorem load_vector_store_ignores_model_id_witness :
    load_vector_store exLoadEnv "model-b" = .ok (exLoadEnv.loadLocal "model-b") :=
  load_vector_store_ignores_model_id exLoadEnv "model-b" rfl rfl

/-! ### C5 — no partial persistence on build failure -/

/-- C5: if `build_vector_store` fails at any pre-save stage (missing
folder, embedding-initialization failure, empty corpus, or FAISS
vector-construction failure), it raises and the persisted index location
is unchanged; in particular an empty reference folder raises the
empty-corpus `ValueError` before any write, leaving any previously
persisted index intact. -/
theorem build_vector_store_no_partial_persist (env : BuildEnv)
    (disk : Option Store) :
    ((env.folderExists = false ∨ (∃ e, env.embedInit = .error e) ∨
      loadedDocs env = [] ∨
      (∃ e, env.faissBuild (env.splitDocs (loadedDocs env)) = .error e)) →
      (∃ e2, (build_vector_store env disk).1 = .error e2) ∧
      (build_vector_store env disk).2 = disk) ∧
    (env.folderExists = true → env.embedInit = .ok () → env.listing = [] →
      build_vector_store env disk =
        (.error (.valueError "No legal reference documents found in legal_refs/"),
         disk)) := by
  constructor
  · intro h
    by_cases hf : env.folderExists = false
    · refine ⟨⟨.fileNotFoundError "Legal refs folder not found: legal_refs", ?_⟩, ?_⟩ <;>
        simp [build_vector_store, hf]
    · have hf' : env.folderExists = true := by
        revert hf; cases env.folderExists <;> simp
      rcases he : env.embedInit with e | u
      · refine ⟨⟨.runtimeError ("Failed to initialize embeddings: " ++ e), ?_⟩, ?_⟩ <;>
          simp [build_vector_store, hf', he]
      · cases u
        by_cases hd : loadedDocs env = []
        · refine ⟨⟨.valueError "No legal reference documents found in legal_refs/", ?_⟩, ?_⟩ <;>
            simp [build_vector_store, hf', he, hd]
        · rcases hb : env.faissBuild (env.splitDocs (loadedDocs env)) with e | vs
          · refine ⟨⟨.runtimeError ("Failed to build FAISS vectorstore: " ++ e), ?_⟩, ?_⟩ <;>
              simp [build_vector_store, hf', he, hd, hb]
          · exfalso
            rcases h with h | ⟨e, h⟩ | h | ⟨e, h⟩
            · exact hf h
            · rw [he] at h; exact Except.noConfusion h
            · exact hd h
            · rw [hb] at h; exact Except.noConfusion h
  · intro h1 h2 h3
    have hd : loadedDocs env = [] := by simp [loadedDocs, h3]
    simp [build_vector_store, h1, h2, hd]

/-- A build environment over an empty reference folder, with a
vector-construction stage that would fail if ever reached. -/
def exBuildEnvEmpty : BuildEnv :=
  { folderExists := true, listing := [], loadPdf := fun _ => []
    loadTxt := fun _ => [], embedInit := .ok (), splitDocs := fun d => d
    faissBuild := fun _ => .error "no vectors", saveResult := .ok ()
    savePartialDisk := none }

/-- C5 witness: building from an empty folder raises the empty-corpus
error and leaves the previously persisted index (`some exStore`) intact. -/
theorem build_vector_store_no_partial_persist_witness :
    build_vector_store exBuildEnvEmpty (some exStore) =
      (.error (.valueError "No legal reference documents found in legal_refs/"),
       some exStore) :=
  (build_vector_store_no_partial_persist exBuildEnvEmpty (some exStore)).2
    rfl rfl rfl

/-! ### C7 — retrieval returns at most k results, strictly ordered -/

/-- C7: for every k ≥ 1, store and query, retrieval returns at most k
results, ordered strictly descending by similarity score with ties broken
by original fragment insertion order. -/
theorem retrieve_topk_sorted (vs : Store) (q : String) (k : Nat)
    (hk : 1 ≤ k) :
    (similarity_search vs q k).length ≤ k ∧
    List.Pairwise
      (fun a b => b.score < a.score ∨ (a.score = b.score ∧ a.pos < b.pos))
      (similarity_search vs q k) := by
  constructor
  · exact List.length_take_le k _
  · have hsorted : List.Pairwise simPrec
        (List.insertionSort simPrec (entriesOf vs q)) :=
      List.sorted_insertionSort simPrec (entriesOf vs q)
    have hperm : List.Perm (List.insertionSort simPrec (entriesOf vs q))
        (entriesOf vs q) :=
      List.perm_insertionSort simPrec (entriesOf vs q)
    have hnd0 : ((entriesOf vs q).map (fun e => e.pos)).Nodup := by
      have hmf : (entriesOf vs q).map (fun e => e.pos) =
          vs.frags.enum.map Prod.fst := by
        simp only [entriesOf, List.map_map]
        rfl
      rw [hmf]
      exact List.nodup_enum_map_fst _
    have hnd : ((List.insertionSort simPrec (entriesOf vs q)).map
        (fun e => e.pos)).Nodup :=
      ((hperm.map (fun e => e.pos)).nodup_iff).mpr hnd0
    have hpne : List.Pairwise (fun a b : SimEntry => a.pos ≠ b.pos)
        (List.insertionSort simPrec (entriesOf vs q)) :=
      List.pairwise_map.mp hnd
    have hstrict : List.Pairwise
        (fun a b => b.score < a.score ∨ (a.score = b.score ∧ a.pos < b.pos))
        (List.insertionSort simPrec (entriesOf vs q)) := by
      refine List.Pairwise.imp ?_ (List.Pairwise.and hsorted hpne)
      rintro a b ⟨hab, hne⟩
      rcases hab with h | ⟨hs, hp⟩
      · exact Or.inl h
      · exact Or.inr ⟨hs, lt_of_le_of_ne hp hne⟩
    exact List.Pairwise.sublist (List.take_sublist k _) hstrict

/-- A three-fragment store containing a score tie, for the C7 witness. -/
def exStoreTie : Store :=
  { frags := [{ text := "frag a", source := some "a.txt", vec := [1] },
              { text := "frag b", source := some "b.txt", vec := [2] },
              { text := "frag c", source := some "c.txt", vec := [2] }]
    embed := fun _ => [1] }

/-- C7 witness. -/
theorem retrieve_topk_sorted_witness :
    (similarity_search exStoreTie "q" 2).length ≤ 2 ∧
    List.Pairwise
      (fun a b => b.score < a.score ∨ (a.score = b.score ∧ a.pos < b.pos))
      (similarity_search exStoreTie "q" 2) :=
  retrieve_topk_sorted exStoreTie "q" 2 (by decide)

/-! ### C4 — evidence-without-judgment mode -/

/-- The accumulator of Python `sep.join` never shrinks. -/
theorem pyJoin_foldl_length_ge (sep : String) :
    ∀ (rest : List String) (a : String),
      a.length ≤ (List.foldl (fun acc x => acc ++ sep ++ x) a rest).length := by
  intro rest
  induction rest with
  | nil => intro a; exact le_refl _
  | cons x xs ih =>
    intro a
    rw [List.foldl_cons]
    refine le_trans ?_ (ih (a ++ sep ++ x))
    simp only [String.length_append]
    omega

/-- Joining a list whose head is non-empty yields a non-empty string. -/
theorem pyJoin_cons_ne_empty (sep a : String) (rest : List String)
    (ha : 0 < a.length) : pyJoin sep (a :: rest) ≠ "" := by
  intro h
  have h2 := pyJoin_foldl_length_ge sep rest a
  have h3 : pyJoin sep (a :: rest) =
      List.foldl (fun acc x => acc ++ sep ++ x) a rest := rfl
  rw [← h3, h] at h2
  simp at h2
  omega

/-- C4: with a non-empty store and an absent backend,
`check_clause_with_rag` returns `compliant=None`, `issue=None`,
`suggestion=None`, and `citation` equal to the concatenation of the top-k
retrieved fragment texts each tagged with its source — a non-empty
string. -/
theorem check_clause_no_llm_evidence_mode (jl : String → Option PyDict)
    (clause : String) (vs : Store) (k : Nat)
    (hne : vs.frags ≠ []) (hk : 1 ≤ k) :
    check_clause_with_rag jl clause (some vs) none k =
      .ok [("compliant", .null), ("issue", .null), ("suggestion", .null),
           ("citation", .str (contextOf vs clause k))] ∧
    contextOf vs clause k ≠ "" := by
  constructor
  · rfl
  · have h1 : 0 < vs.frags.length := List.length_pos.mpr hne
    have h2 : (entriesOf vs clause).length = vs.frags.length := by
      simp [entriesOf]
    have h3 : (List.insertionSort simPrec (entriesOf vs clause)).length =
        (entriesOf vs clause).length :=
      (List.perm_insertionSort simPrec (entriesOf vs clause)).length_eq
    have h4 : 0 < (similarity_search vs clause k).length := by
      show 0 < ((List.insertionSort simPrec (entriesOf vs clause)).take k).length
      rw [List.length_take, h3, h2]
      omega
    rcases hdocs : similarity_search vs clause k with _ | ⟨d, ds⟩
    · rw [hdocs] at h4; simp at h4
    · have hctx : contextOf vs clause k =
          pyJoin "\n\n---\n\n"
            ((d.text ++ "\n\n[SOURCE: " ++ d.source.getD "unknown" ++ "]") ::
              (ds.map fun x =>
                x.text ++ "\n\n[SOURCE: " ++ x.source.getD "unknown" ++ "]")) := by
        simp [contextOf, hdocs]
      rw [hctx]
      apply pyJoin_cons_ne_empty
      have hb : (0 : Nat) < ("\n\n[SOURCE: " : String).length := by decide
      simp only [String.length_append]
      omega

/-- C4 witness: the one-fragment scenario store in evidence-only mode. -/
theorem check_clause_no_llm_evidence_mode_witness :
    check_clause_with_rag exJlNone "Governed by DIFC courts." (some exStore)
        none 1 =
      .ok [("compliant", .null), ("issue", .null), ("suggestion", .null),
           ("citation", .str (contextOf exStore "Governed by DIFC courts." 1))] ∧
    contextOf exStore "Governed by DIFC courts." 1 ≠ "" :=
  check_clause_no_llm_evidence_mode exJlNone "Governed by DIFC courts."
    exStore 1 (by decide) (by decide)

/-! ### C9 — parsed JSON objects are returned verbatim -/

/-- C9: whenever the substring of the response between the first opening
brace and the last closing brace parses as JSON, `check_clause_with_rag`
returns the parsed object verbatim — no check is made for the contract
keys `compliant`/`issue`/`suggestion`/`citation`, and the retrieved
context is not attached; for some backend responses the returned
judgment therefore contains none of the contract's fields. -/
theorem check_clause_returns_parsed_verbatim :
    (∀ (jl : String → Option PyDict) (clause : String) (vs : Store)
        (l : LLM) (k : Nat) (raw : String) (data : PyDict),
      call_llm_tolerant (some l)
          (promptTemplate clause (contextOf vs clause k)) = .ok raw →
      jl (extractBraces raw) = some data →
      check_clause_with_rag jl clause (some vs) (some l) k = .ok data) ∧
    (∃ (jl : String → Option PyDict) (clause : String) (vs : Store)
        (l : LLM) (k : Nat) (d : PyDict),
      check_clause_with_rag jl clause (some vs) (some l) k = .ok d ∧
      d.lookup "compliant" = none ∧ d.lookup "issue" = none ∧
      d.lookup "suggestion" = none ∧ d.lookup "citation" = none) := by
  constructor
  · intro jl clause vs l k raw data hraw hjson
    simp [check_clause_with_rag, hraw, hjson]
  · exact ⟨exJlVerbatim, "c", exStore, exLLMok, 3,
      [("verdict", JValue.str "no contract keys")], rfl, rfl, rfl, rfl, rfl⟩

/-- C9 witness: a backend response parsed to a dict without any of the
contract's keys is returned verbatim. -/
theorem check_clause_returns_parsed_verbatim_witness :
    check_clause_with_rag exJlVerbatim "c2" (some exStore) (some exLLMok) 3 =
      .ok [("verdict", JValue.str "no contract keys")] :=
  (check_clause_returns_parsed_verbatim).1 exJlVerbatim "c2" exStore exLLMok 3
    "x" [("verdict", JValue.str "no contract keys")] rfl rfl

/-! ### C10 — paragraph mapping of red-flag annotations -/

/-- C10: every record returned by `run_all_checks` carries a paragraph
index that is zero or the index of the first paragraph containing the
flagged text (case-insensitively); an issue whose match text occurs in
no paragraph — and the missing-signature issue, which has no match
text — is assigned paragraph index 0, attaching to the document's first
paragraph. -/
theorem run_all_checks_paragraph_mapping :
    (∀ (text : String) (paragraphs : List String),
      ∀ a ∈ run_all_checks text paragraphs,
        a.paragraph_index = 0 ∨
        List.findIdx? (fun p => lowerContains p a.flag_text) paragraphs =
          some a.paragraph_index) ∧
    (∀ (paragraphs : List String) (iss : Issue),
      (∀ m, iss.matchText = some m →
        List.findIdx? (fun p => lowerContains p m) paragraphs = none) →
      (mapIssue paragraphs iss).paragraph_index = 0) := by
  constructor
  · intro text paragraphs a ha
    unfold run_all_checks at ha
    rcases List.mem_map.mp ha with ⟨iss, hmem, hEq⟩
    subst hEq
    rcases hm : iss.matchText with _ | m
    · left; simp [mapIssue, hm]
    · by_cases hemp : m = ""
      · left; simp [mapIssue, hm, hemp]
      · rcases hidx : List.findIdx? (fun p => lowerContains p m) paragraphs
          with _ | i
        · left; simp [mapIssue, hm, hemp, hidx]
        · right; simp [mapIssue, hm, hemp, hidx]
  · intro paragraphs iss h
    rcases hm : iss.matchText with _ | m
    · simp [mapIssue, hm]
    · by_cases hemp : m = ""
      · simp [mapIssue, hm, hemp]
      · simp [mapIssue, hm, hemp, h m hm]

/-- The annotation produced for a DIFC reference whose flagged text
occurs in no paragraph. -/
def exAnn : MappedIssue :=
  { paragraph_index := 0, flag_text := "DIFC"
    comment := "References DIFC instead of ADGM", severity := "High" }

/-- C10 witness: on the text `"DIFC"` with one unrelated paragraph, the
DIFC annotation is attached to paragraph 0. -/
theorem run_all_checks_paragraph_mapping_witness :
    exAnn.paragraph_index = 0 ∨
    List.findIdx? (fun p => lowerContains p exAnn.flag_text)
        ["some paragraph"] = some exAnn.paragraph_index :=
  (run_all_checks_paragraph_mapping).1 "DIFC" ["some paragraph"] exAnn
    (by decide)
